import Mathlib

namespace SeoAnalyst

/-- The parsed HTML document tree, in first-child / next-sibling form.
A `Forest` is a sequence of sibling nodes: empty, a text node followed by
its siblings, or an element node (tag name plus the forest of its
children) followed by its siblings. A whole document is the forest of
its top-level nodes. -/
inductive Forest where
  | nil
  | text (s : String) (sib : Forest)
  | elem (tag : String) (children : Forest) (sib : Forest)
deriving Repr, DecidableEq

/-- A document: the forest of top-level nodes of the parse tree. -/
abbrev Doc := Forest

/-- The tag names decomposed from the body before text extraction, from
`soup.body(["script", "style", "img", "input"])`. -/
def bannedTags : List String := ["script", "style", "img", "input"]

/-- First element with the given tag name in document (pre-)order, as
`soup.find(tag)` behaves for `soup.title` / `soup.body`; returns the
element's tag together with the forest of its children. -/
def findTag (t : String) : Forest → Option (String × Forest)
  | .nil => none
  | .text _ sib => findTag t sib
  | .elem tag cs sib =>
    if tag = t then some (tag, cs)
    else
      match findTag t cs with
      | some r => some r
      | none => findTag t sib

/-- Whether some element with the given tag name occurs in the forest. -/
def hasTag (t : String) : Forest → Bool
  | .nil => false
  | .text _ sib => hasTag t sib
  | .elem tag cs sib => tag = t || hasTag t cs || hasTag t sib

/-- BeautifulSoup `Tag.string`, applied to the contents of a tag: the
single string within the tag. If the tag has exactly one child and it is
a text node, that text; if the single child is an element, recursively
its string; in every other case (no child, or several) `None`. -/
def tagString : Forest → Option String
  | .text s .nil => some s
  | .elem _ cs .nil => tagString cs
  | _ => none

/-- Remove every element whose tag is in `bannedTags`, together with its
whole subtree: the net effect of decomposing each element found by
`soup.body(["script", "style", "img", "input"])`. -/
def removeBanned : Forest → Forest
  | .nil => .nil
  | .text s sib => .text s (removeBanned sib)
  | .elem tag cs sib =>
    if tag ∈ bannedTags then removeBanned sib
    else .elem tag (removeBanned cs) (removeBanned sib)

/-- All text-node strings of a forest in document order, as iterated by
BeautifulSoup `Tag.strings` (the basis of `get_text`). -/
def allStrings : Forest → List String
  | .nil => []
  | .text s sib => s :: allStrings sib
  | .elem _ cs sib => allStrings cs ++ allStrings sib

/-- All text-node strings of the forest that do not lie inside an element
whose tag is in `bannedTags`: the strings whose origin is outside every
script / style / img / input element. -/
def stringsOutsideBanned : Forest → List String
  | .nil => []
  | .text s sib => s :: stringsOutsideBanned sib
  | .elem tag cs sib =>
    if tag ∈ bannedTags then stringsOutsideBanned sib
    else stringsOutsideBanned cs ++ stringsOutsideBanned sib

/-- Python `str.isspace` characters in the ASCII range relevant to
`str.strip()` with no argument. -/
def isPySpace (c : Char) : Bool :=
  c == ' ' || c == '\t' || c == '\n' || c == '\x0d' || c == '\x0b' || c == '\x0c'

/-- Python `str.strip()`: drop leading and trailing whitespace. -/
def pyStrip (s : String) : String :=
  String.mk (((s.data.dropWhile isPySpace).reverse.dropWhile isPySpace).reverse)

/-- BeautifulSoup `get_text(separator, strip=True)` over the contents of
a tag: each descendant string is individually stripped, strings that
become empty are dropped, and the survivors are joined with the
separator. -/
def getTextStrip (separator : String) (contents : Forest) : String :=
  String.intercalate separator
    (((allStrings contents).map pyStrip).filter (fun s => s ≠ ""))

/-- The title field computed by `Website.__init__`:
`soup.title.string if soup.title else "No title found"`. `none` models
Python `None` (which `Tag.string` yields for a tag that does not contain
exactly one string). -/
def extractTitle (doc : Doc) : Option String :=
  match findTag "title" doc with
  | some (_, cs) => tagString cs
  | none => some "No title found"

/-- The text field computed by `Website.__init__`: decompose every
script / style / img / input element inside the first `<body>`, then
`soup.body.get_text(separator="\n", strip=True)`; the empty string when
there is no `<body>`. -/
def extractBodyText (doc : Doc) : String :=
  match findTag "body" doc with
  | some (_, cs) => getTextStrip "\n" (removeBanned cs)
  | none => ""

example :
    extractTitle (.elem "html" (.elem "head" (.elem "title" (.text "T" .nil) .nil) .nil) .nil) =
    some "T" := by decide

example : extractTitle (.elem "html" .nil .nil) = some "No title found" := by decide

example :
    extractBodyText
      (.elem "html"
        (.elem "body"
          (.elem "p" (.text "Hi" .nil) (.elem "script" (.text "bad()" .nil) .nil)) .nil) .nil) =
    "Hi" := by decide

/-- The result of one HTTP request: either a transport-level failure
(DNS, connection, timeout — a `requests.exceptions.RequestException`)
with its message, or a response with a status code, a reason phrase and,
for page fetches, the parsed document. -/
inductive HttpOutcome where
  | transportError (msg : String)
  | response (status : Nat) (reason : String) (body : Doc)
deriving Repr

/-- Status code of an outcome, `none` on a transport failure. -/
def statusOf : HttpOutcome → Option Nat
  | .transportError _ => none
  | .response s _ _ => some s

/-- The fixed User-Agent string of `headers` (app.py) / `WEB_HEADERS`
(app2.py). -/
def WEB_HEADERS_UA : String :=
  "Mozilla/5.0 (Windows NT 10.0; Win64; x64) AppleWebKit/537.36 (KHTML, like Gecko) Chrome/117.0.0.0 Safari/537.36"

/-- The single GET request issued by `Website.__init__`:
`requests.get(url, headers=headers, timeout=10)`. -/
structure FetchRequest where
  url : String
  userAgent : String
  timeout : Nat
deriving Repr, DecidableEq

/-- The request `Website.__init__` sends for a given URL: fixed
User-Agent header, timeout of 10 seconds. -/
def mkFetchRequest (url : String) : FetchRequest :=
  { url := url, userAgent := WEB_HEADERS_UA, timeout := 10 }

/-- The message of the `requests.exceptions.HTTPError` raised by
`response.raise_for_status()` for a 4xx (client) or 5xx (server)
status. -/
def raiseForStatusMsg (status : Nat) (reason url : String) : String :=
  if status < 500 then
    toString status ++ " Client Error: " ++ reason ++ " for url: " ++ url
  else
    toString status ++ " Server Error: " ++ reason ++ " for url: " ++ url

/-- The `Website` object of app.py / app2.py: URL, title (`none` models
Python `None`) and extracted body text. -/
structure Website where
  url : String
  title : Option String
  text : String
deriving Repr, DecidableEq

/-- `Website.__init__` applied to the outcome of its GET request:
`raise_for_status` raises exactly for statuses in [400, 600), any
exception is re-raised as `Exception("Error fetching website: " + str(e))`,
and on success the title and body text are extracted from the parsed
content. -/
def websiteFromResponse (url : String) : HttpOutcome → Except String Website
  | .transportError msg => .error ("Error fetching website: " ++ msg)
  | .response status reason body =>
    if 400 ≤ status ∧ status < 600 then
      .error ("Error fetching website: " ++ raiseForStatusMsg status reason url)
    else
      .ok { url := url, title := extractTitle body, text := extractBodyText body }

/-- `Website.__init__` as a whole, over an oracle `http` giving the
outcome of any HTTP request: it issues the single request
`mkFetchRequest url` and processes the outcome. -/
def websiteInit (url : String) (http : FetchRequest → HttpOutcome) : Except String Website :=
  websiteFromResponse url (http (mkFetchRequest url))

/-- Python `f"...{x}..."` formatting of `self.title`: `None` renders as
the string `"None"`. -/
def pyFormatOpt : Option String → String
  | none => "None"
  | some s => s

/-- The system prompt of app.py `analyze_website` (exact text, including
the indentation and trailing spaces of the source literal). -/
def app_system_prompt : String :=
  "You are an SEO Expert and Web Development Engineer that analyzes the contents of a website \n    and provides a detailed analysis on the status of SEO and how to improve the SEO vitals, ignoring text that might be navigation related. \n    Structure your response in the following sections:\n    1. Overall SEO Score (0-100)\n    2. Key Findings\n    3. Critical Issues\n    4. Recommendations\n    5. Technical Details\n    6. Check if the website is mobile-friendly and if it is, provide a list of the mobile-friendly features that are being tracked.\n    7. Check if the website is fast and if it is, provide a list of the fast features that are being tracked.\n    8. Check any other factors that might affect the SEO of the website.\n    Respond in markdown format."

/-- The user prompt built by app.py `analyze_website` (exact f-string
text, including the indentation of the source literal). -/
def user_prompt_app (title url text : String) : String :=
  "You are analyzing a website titled: " ++ title ++
  "\n        URL: " ++ url ++
  "\n        \n        Please analyze the following content and provide a comprehensive SEO analysis:\n        \n        " ++ text

/-- The system prompt shared by `analyze_with_ollama` and
`analyze_with_openai` in app2.py (the two source literals are
identical). -/
def app2_system_prompt : String :=
  "You are an SEO Expert and Web Development Engineer. Analyze the website content and provide a detailed SEO analysis with these sections:\n    1. Overall SEO Score (0-100)\n    2. Key Findings\n    3. Critical Issues\n    4. Recommendations\n    5. Technical Details\n    6. Mobile-friendly Analysis\n    7. Performance Analysis\n    8. Additional SEO Factors\n    Respond in markdown format."

/-- The user message content of `analyze_with_openai`:
`f"Analyzing website: {website.title}\nURL: {website.url}\n\nContent:\n{website.text}"`. -/
def app2_user_content (title url text : String) : String :=
  "Analyzing website: " ++ title ++ "\nURL: " ++ url ++ "\n\nContent:\n" ++ text

/-- The merged prompt of `analyze_with_ollama`:
`f"{system_prompt}\n\nAnalyzing website: ..."`. -/
def ollama_full_prompt (title url text : String) : String :=
  app2_system_prompt ++ "\n\n" ++ app2_user_content title url text

/-- One message of an OpenAI chat-completion request. -/
structure ChatMessage where
  role : String
  content : String
deriving Repr, DecidableEq

/-- app.py `analyze_website`: build the `Website`, build the prompts,
send them to the completion backend (an oracle from the message list to
the service's reply or failure message), and wrap any exception raised
inside the `try` block as `Exception("Analysis failed: " + str(e))`. -/
def analyze_website (url : String) (http : FetchRequest → HttpOutcome)
    (backend : List ChatMessage → Except String String) : Except String String :=
  match websiteInit url http with
  | .error e => .error ("Analysis failed: " ++ e)
  | .ok website =>
    match backend [⟨"system", app_system_prompt⟩,
        ⟨"user", user_prompt_app (pyFormatOpt website.title) url website.text⟩] with
    | .error e => .error ("Analysis failed: " ++ e)
    | .ok content => .ok content

/-- app2.py `analyze_with_openai`: send the system/user message pair to
the hosted service (an oracle; the api_key is consumed by the client
constructor) and wrap any failure as
`Exception("OpenAI analysis failed: " + str(e))`. -/
def analyze_with_openai (website : Website) (api_key : String)
    (backend : List ChatMessage → Except String String) : Except String String :=
  let _ := api_key
  match backend [⟨"system", app2_system_prompt⟩,
      ⟨"user", app2_user_content (pyFormatOpt website.title) website.url website.text⟩] with
  | .error e => .error ("OpenAI analysis failed: " ++ e)
  | .ok content => .ok content

/-- Constant `OLLAMA_API` of app2.py. -/
def OLLAMA_API : String := "http://localhost:11434/api/generate"

/-- Constant `OLLAMA_MODEL` of app2.py. -/
def OLLAMA_MODEL : String := "llama3.2:latest"

/-- The JSON payload `{model, prompt, stream}` POSTed to Ollama. -/
structure OllamaPayload where
  model : String
  prompt : String
  stream : Bool
deriving Repr, DecidableEq

/-- Outcome of the POST to the Ollama generate endpoint: transport
failure, or a response with status, reason and the `response` field of
its JSON body (`none` when the field is absent). -/
inductive OllamaOutcome where
  | transportError (msg : String)
  | response (status : Nat) (reason : String) (jsonResponse : Option String)
deriving Repr, DecidableEq

/-- app2.py `analyze_with_ollama`: POST the merged prompt (non-streaming,
fixed model) to `OLLAMA_API`, `raise_for_status`, read
`response.json()['response']`, and wrap any failure as
`Exception("Ollama analysis failed: " + str(e))` (for a missing
`response` field, `str(KeyError('response'))` is `"'response'"`). -/
def analyze_with_ollama (website : Website)
    (post : OllamaPayload → OllamaOutcome) : Except String String :=
  match post { model := OLLAMA_MODEL,
               prompt := ollama_full_prompt (pyFormatOpt website.title) website.url website.text,
               stream := false } with
  | .transportError msg => .error ("Ollama analysis failed: " ++ msg)
  | .response status reason jsonResponse =>
    if 400 ≤ status ∧ status < 600 then
      .error ("Ollama analysis failed: " ++ raiseForStatusMsg status reason OLLAMA_API)
    else
      match jsonResponse with
      | some r => .ok r
      | none => .error ("Ollama analysis failed: 'response'")

/-- app2.py `check_ollama_availability` over the outcomes of its two
network calls (the tags GET, and the test generation POST that is only
reached when the GET returned 200): any
`requests.exceptions.RequestException` is caught and yields `False`;
otherwise the result is `True` exactly when the reached calls returned
status 200. -/
def check_ollama_availability (tags gen : HttpOutcome) : Bool :=
  match tags with
  | .transportError _ => false
  | .response s _ _ =>
    if s ≠ 200 then false
    else
      match gen with
      | .transportError _ => false
      | .response s2 _ _ => s2 == 200

/-- The AI provider selected in the sidebar of app2.py. -/
inductive ApiSource where
  | openai
  | ollama
deriving Repr, DecidableEq

/-- Python truthiness test `not st.session_state.api_key`: the key is
missing when it is `None` or the empty string. -/
def keyMissing : Option String → Bool
  | none => true
  | some s => s == ""

/-- A network call observable during one run of app2.py `main`. -/
inductive NetCall where
  | probeTags
  | probeGenerate
  | pageGet (req : FetchRequest)
  | completionPost
deriving Repr, DecidableEq

/-- The network calls made by one run of `check_ollama_availability`:
the tags GET always, the test generation POST only when the tags GET
returned status 200. -/
def probeCalls (tags : HttpOutcome) : List NetCall :=
  match tags with
  | .transportError _ => [.probeTags]
  | .response s _ _ => if s = 200 then [.probeTags, .probeGenerate] else [.probeTags]

/-- Result rendered by one run of app2.py `main`. -/
inductive MainOutcome where
  | noAction
  | blocked (msg : String)
  | failed (msg : String)
  | success (report : String)
deriving Repr, DecidableEq

/-- app2.py `main` for one script run, over the session state (selected
source, api key), the button/url inputs, and oracles for every network
interaction (`tags`/`gen`: the probe's two calls, assumed stable within
the run; `http`: the page GET; the two completion backends). Returns the
rendered outcome together with the list of network calls made, in
order. `render_api_selection` probes availability only when Ollama is
selected; the validation in `main` probes again; the OpenAI key check
happens before any network call. -/
def mainRun (button : Bool) (url : String) (source : ApiSource) (apiKey : Option String)
    (tags gen : HttpOutcome) (http : FetchRequest → HttpOutcome)
    (openaiBackend : List ChatMessage → Except String String)
    (ollamaPost : OllamaPayload → OllamaOutcome) : MainOutcome × List NetCall :=
  let renderCalls := if source = .ollama then probeCalls tags else []
  if button = true ∧ url ≠ "" then
    if source = .openai ∧ keyMissing apiKey then
      (.blocked "❌ Please provide an OpenAI API key", renderCalls)
    else if source = .ollama ∧ check_ollama_availability tags gen = false then
      (.blocked "❌ Ollama server is not available", renderCalls ++ probeCalls tags)
    else
      let validationCalls := if source = .ollama then probeCalls tags else []
      let calls := renderCalls ++ validationCalls ++ [.pageGet (mkFetchRequest url)]
      match websiteInit url http with
      | .error e => (.failed ("❌ Error: " ++ e), calls)
      | .ok website =>
        match source with
        | .openai =>
          match analyze_with_openai website ((apiKey).getD "") openaiBackend with
          | .error e => (.failed ("❌ Error: " ++ e), calls ++ [.completionPost])
          | .ok report => (.success report, calls ++ [.completionPost])
        | .ollama =>
          match analyze_with_ollama website ollamaPost with
          | .error e => (.failed ("❌ Error: " ++ e), calls ++ [.completionPost])
          | .ok report => (.success report, calls ++ [.completionPost])
  else
    (.noAction, renderCalls)

/-- Substring containment: `sub` occurs contiguously inside `hay`. -/
def strContains (hay sub : String) : Prop :=
  ∃ pre post : List Char, hay.data = pre ++ sub.data ++ post

/-- A prompt-building function embeds its three arguments verbatim. -/
def promptNeedles (build : String → String → String → String) : Prop :=
  ∀ title url text : String,
    strContains (build title url text) title ∧
    strContains (build title url text) url ∧
    strContains (build title url text) text

theorem strContains_self (s : String) : strContains s s :=
  ⟨[], [], by simp⟩

theorem strContains_appendLeft (a hay sub : String) (h : strContains hay sub) :
    strContains (a ++ hay) sub := by
  obtain ⟨pre, post, hp⟩ := h
  exact ⟨a.data ++ pre, post, by simp [String.data_append, hp]⟩

theorem strContains_appendRight (hay b sub : String) (h : strContains hay sub) :
    strContains (hay ++ b) sub := by
  obtain ⟨pre, post, hp⟩ := h
  exact ⟨pre, post ++ b.data, by simp [String.data_append, hp]⟩

theorem hasTag_iff_findTag (t : String) (f : Forest) :
    hasTag t f = true ↔ (findTag t f).isSome = true := by
  induction f with
  | nil => simp [hasTag, findTag]
  | text s sib ih => simpa [hasTag, findTag] using ih
  | elem tag cs sib ihc ihs =>
    by_cases htag : tag = t
    · simp [hasTag, findTag, htag]
    · simp only [hasTag, findTag, if_neg htag]
      cases h : findTag t cs with
      | some r =>
        have : hasTag t cs = true := ihc.mpr (by simp [h])
        simp [h, htag, this]
      | none =>
        have : hasTag t cs = false := by
          cases hc : hasTag t cs
          · rfl
          · exact absurd (ihc.mp hc) (by simp [h])
        simp [htag, this, ihs]

theorem hasTag_removeBanned (t : String) (ht : t ∈ bannedTags) (f : Forest) :
    hasTag t (removeBanned f) = false := by
  induction f with
  | nil => rfl
  | text s sib ih => simpa [removeBanned, hasTag] using ih
  | elem tag cs sib ihc ihs =>
    by_cases hb : tag ∈ bannedTags
    · simpa [removeBanned, hb] using ihs
    · have htag : (tag = t) = False := by
        simp only [eq_iff_iff, iff_false]
        intro h; exact hb (h ▸ ht)
      simp [removeBanned, hb, hasTag, htag, ihc, ihs]

theorem allStrings_removeBanned (f : Forest) :
    allStrings (removeBanned f) = stringsOutsideBanned f := by
  induction f with
  | nil => rfl
  | text s sib ih => simp [removeBanned, allStrings, stringsOutsideBanned, ih]
  | elem tag cs sib ihc ihs =>
    by_cases hb : tag ∈ bannedTags
    · simp [removeBanned, stringsOutsideBanned, hb, ihs]
    · simp [removeBanned, allStrings, stringsOutsideBanned, hb, ihc, ihs]

/-- Following the spec's words, not the source: the "trimmed text
content" of an element, given its contents — all its text nodes
concatenated, then stripped of leading/trailing whitespace. Used only to
compare the spec's description of the title against the code. -/
def specTrimmedTextContent (contents : Forest) : String :=
  pyStrip (String.join (allStrings contents))

/-- Following the spec's words, not the source: body text formed by
concatenating all remaining text nodes with a newline inserted between
each distinct text node, and stripping leading/trailing whitespace from
the final result only. Used only to compare the spec's description
against the code. -/
def specBodyText (cleaned : Forest) : String :=
  pyStrip (String.intercalate "\n" (allStrings cleaned))

/-- C1 counterexample: for `<html><head><title> Hi </title></head><body></body></html>`
the extracted title is the untrimmed string " Hi ", while the trimmed
text content of the `<title>` element is "Hi" — the claim's "trimmed"
does not hold on the code. -/
theorem c1_counterexample :
    extractTitle (.elem "html" (.elem "head" (.elem "title" (.text " Hi " .nil) .nil)
        (.elem "body" .nil .nil)) .nil) = some " Hi " ∧
    specTrimmedTextContent (.text " Hi " .nil) = "Hi" ∧
    (" Hi " : String) ≠ "Hi" := by
  refine ⟨rfl, ?_, by decide⟩
  decide

/-- C1 (amended): if the document has no `<title>` element the extracted
title is the literal placeholder "No title found"; if it has one, the
extracted title is the untrimmed BeautifulSoup string of the first such
element — the exact text of its single string, or Python None when the
element does not contain exactly one string. -/
theorem c1_amended_title_extraction (doc : Doc) :
    (hasTag "title" doc = false → extractTitle doc = some "No title found") ∧
    (∀ tag cs, findTag "title" doc = some (tag, cs) → extractTitle doc = tagString cs) ∧
    (hasTag "title" doc = true → ∃ tag cs, findTag "title" doc = some (tag, cs)) := by
  refine ⟨?_, ?_, ?_⟩
  · intro h
    have : findTag "title" doc = none := by
      cases hf : findTag "title" doc with
      | none => rfl
      | some r =>
        have := (hasTag_iff_findTag "title" doc).mpr (by simp [hf])
        rw [this] at h
        exact absurd h (by simp)
    simp [extractTitle, this]
  · intro tag cs h
    simp [extractTitle, h]
  · intro h
    have hs := (hasTag_iff_findTag "title" doc).mp h
    match hf : findTag "title" doc with
    | none => rw [hf] at hs; exact absurd hs (by simp)
    | some (tag, cs) => exact ⟨tag, cs, rfl⟩

/-- C1 witness: the amended theorem applied to a document with
`<title>T</title>` and to a document with no title element. -/
theorem c1_amended_witness :
    extractTitle (.elem "html" (.elem "head" (.elem "title" (.text "T" .nil) .nil) .nil) .nil) =
      tagString (.text "T" .nil) ∧
    extractTitle (.elem "html" (.elem "body" .nil .nil) .nil) = some "No title found" :=
  ⟨(c1_amended_title_extraction _).2.1 "title" (.text "T" .nil) (by decide),
   (c1_amended_title_extraction _).1 (by decide)⟩

/-- C2 counterexample: for `<body> a <b> b </b></body>` — whose body
holds the text nodes " a " and " b " — the code (get_text with
strip=True) strips each text node individually and yields "a\nb", while
the claim's rule — join with newlines, then strip only the final
result — yields "a \n b". -/
theorem c2_counterexample :
    extractBodyText (.elem "html"
        (.elem "body" (.text " a " (.elem "b" (.text " b " .nil) .nil)) .nil) .nil) =
      "a\nb" ∧
    specBodyText (removeBanned (.text " a " (.elem "b" (.text " b " .nil) .nil))) =
      "a \n b" ∧
    ("a\nb" : String) ≠ "a \n b" := by
  refine ⟨?_, ?_, by decide⟩ <;> decide

/-- C2 (amended): if a `<body>` element exists, every descendant element
of kind script/style/img/input is structurally removed, and the body
text is obtained by stripping each remaining text node individually,
dropping the ones that become empty, and joining the survivors with a
newline; if no `<body>` exists, the body text is the empty string. -/
theorem c2_amended_body_extraction (doc : Doc) :
    (∀ tag cs, findTag "body" doc = some (tag, cs) →
      extractBodyText doc =
        String.intercalate "\n"
          (((allStrings (removeBanned cs)).map pyStrip).filter (fun s => s ≠ "")) ∧
      ∀ t ∈ bannedTags, hasTag t (removeBanned cs) = false) ∧
    (findTag "body" doc = none → extractBodyText doc = "") := by
  refine ⟨?_, ?_⟩
  · intro tag cs h
    exact ⟨by simp [extractBodyText, h, getTextStrip],
           fun t ht => hasTag_removeBanned t ht cs⟩
  · intro h
    simp [extractBodyText, h]

/-- C2 witness: the amended theorem applied to a body containing a text
node and a script element, and to a document with no body. -/
theorem c2_amended_witness :
    (extractBodyText (.elem "body" (.text "Hi" (.elem "script" (.text "bad()" .nil) .nil)) .nil) =
      String.intercalate "\n"
        (((allStrings (removeBanned (.text "Hi" (.elem "script" (.text "bad()" .nil) .nil)))).map
          pyStrip).filter (fun s => s ≠ "")) ∧
      ∀ t ∈ bannedTags,
        hasTag t (removeBanned (.text "Hi" (.elem "script" (.text "bad()" .nil) .nil))) = false) ∧
    extractBodyText (.elem "html" .nil .nil) = "" :=
  ⟨(c2_amended_body_extraction _).1 "body"
      (.text "Hi" (.elem "script" (.text "bad()" .nil) .nil)) (by decide),
   (c2_amended_body_extraction _).2 (by decide)⟩

/-- C3: the extracted body text is computed exclusively from text nodes
that lie outside every script/style/img/input element: the strings
surviving the decomposition are exactly the strings outside the banned
elements, so no substring of the output originates inside one of them
(and with no body the output is empty). -/
theorem c3_body_text_has_no_banned_origin :
    (∀ cs : Forest, allStrings (removeBanned cs) = stringsOutsideBanned cs) ∧
    (∀ doc : Doc, ∀ tag cs, findTag "body" doc = some (tag, cs) →
      extractBodyText doc =
        String.intercalate "\n"
          (((stringsOutsideBanned cs).map pyStrip).filter (fun s => s ≠ ""))) ∧
    (∀ doc : Doc, findTag "body" doc = none → extractBodyText doc = "") := by
  refine ⟨allStrings_removeBanned, ?_, ?_⟩
  · intro doc tag cs h
    simp [extractBodyText, h, getTextStrip, allStrings_removeBanned]
  · intro doc h
    simp [extractBodyText, h]

/-- C3 witness: the theorem applied to a body whose script element holds
the text "bad()": the extracted text is built from the non-script
strings only. -/
theorem c3_witness :
    extractBodyText (.elem "body" (.text "Hi" (.elem "script" (.text "bad()" .nil) .nil)) .nil) =
      String.intercalate "\n"
        (((stringsOutsideBanned (.text "Hi" (.elem "script" (.text "bad()" .nil) .nil))).map
          pyStrip).filter (fun s => s ≠ "")) ∧
    extractBodyText (.text "plain" .nil) = "" :=
  ⟨c3_body_text_has_no_banned_origin.2.1 _ "body"
      (.text "Hi" (.elem "script" (.text "bad()" .nil) .nil)) (by decide),
   c3_body_text_has_no_banned_origin.2.2 (.text "plain" .nil) (by decide)⟩

/-- C4: the code violates the invariant at
`<html><head><title></title></head><body></body></html>` fetched with
status 200: the Website object is successfully constructed and its
title field is Python None (BeautifulSoup `Tag.string` of a tag without
exactly one string), not a non-null string. -/
theorem c4_code_gives_null_title :
    websiteInit "http://x.test"
      (fun _ => .response 200 "OK"
        (.elem "html" (.elem "head" (.elem "title" .nil .nil)
          (.elem "body" .nil .nil)) .nil)) =
    .ok { url := "http://x.test", title := none, text := "" } := rfl

/-- C5 counterexample: a final response with the non-2xx status 304
does not raise — `raise_for_status` only raises for statuses in
[400, 600), so the Website is constructed successfully. -/
theorem c5_counterexample :
    websiteFromResponse "http://x.test" (.response 304 "Not Modified" .nil) =
      .ok { url := "http://x.test", title := some "No title found", text := "" } ∧
    ¬ (200 ≤ 304 ∧ 304 < 300) := by
  exact ⟨rfl, by decide⟩

/-- C5 (amended): the fetch issues a single GET carrying the fixed
User-Agent header and the 10-second timeout, and raises the fetch error
(message "Error fetching website: " plus the underlying cause) exactly
for transport failures and for HTTP statuses in [400, 600) — in
particular for 404 and for a DNS failure; statuses outside that range,
including non-2xx ones such as 304, do not raise. -/
theorem c5_amended_fetch_behavior (url reason msg : String) (status : Nat) (body : Doc)
    (http : FetchRequest → HttpOutcome) (h4 : 400 ≤ status) (h6 : status < 600) :
    ((mkFetchRequest url).userAgent = WEB_HEADERS_UA ∧ (mkFetchRequest url).timeout = 10) ∧
    websiteInit url http = websiteFromResponse url (http (mkFetchRequest url)) ∧
    websiteFromResponse url (.transportError msg) =
      .error ("Error fetching website: " ++ msg) ∧
    websiteFromResponse url (.response status reason body) =
      .error ("Error fetching website: " ++ raiseForStatusMsg status reason url) ∧
    websiteFromResponse url (.response 404 reason body) =
      .error ("Error fetching website: " ++ raiseForStatusMsg 404 reason url) := by
  refine ⟨⟨rfl, rfl⟩, rfl, rfl, ?_, ?_⟩
  · simp [websiteFromResponse, h4, h6]
  · simp [websiteFromResponse]

/-- C5 witness: the amended theorem applied at a 404 response, with a
DNS-failure transport error as the underlying oracle. -/
theorem c5_amended_witness :
    ((mkFetchRequest "http://x.test").userAgent = WEB_HEADERS_UA ∧
      (mkFetchRequest "http://x.test").timeout = 10) ∧
    websiteInit "http://x.test" (fun _ => .transportError "Failed to resolve hostname") =
      websiteFromResponse "http://x.test" (.transportError "Failed to resolve hostname") ∧
    websiteFromResponse "http://x.test" (.transportError "Failed to resolve hostname") =
      .error ("Error fetching website: " ++ "Failed to resolve hostname") ∧
    websiteFromResponse "http://x.test" (.response 404 "Not Found" .nil) =
      .error ("Error fetching website: " ++ raiseForStatusMsg 404 "Not Found" "http://x.test") ∧
    websiteFromResponse "http://x.test" (.response 404 "Not Found" .nil) =
      .error ("Error fetching website: " ++ raiseForStatusMsg 404 "Not Found" "http://x.test") :=
  c5_amended_fetch_behavior "http://x.test" "Not Found" "Failed to resolve hostname" 404 .nil
    (fun _ => .transportError "Failed to resolve hostname") (by decide) (by decide)

/-- C6 counterexample: a fetch failure whose origin message is
"Error fetching website: boom" reaches the presentation layer of app.py
as "Analysis failed: Error fetching website: boom" — the intermediate
layer changes the message, so it does not propagate unmodified. -/
theorem c6_counterexample :
    analyze_website "http://x.test" (fun _ => .transportError "boom") (fun _ => .ok "report") =
      .error "Analysis failed: Error fetching website: boom" ∧
    ("Analysis failed: Error fetching website: boom" : String) ≠
      "Error fetching website: boom" := by
  exact ⟨rfl, by decide⟩

/-- C6 (amended): every failing analysis reaches the presentation layer
as an error — never as a partial result — whose message is the origin
message preserved verbatim as a suffix behind a fixed layer prefix:
"Analysis failed: " in app.py, "OpenAI analysis failed: " and
"Ollama analysis failed: " in app2.py. -/
theorem c6_amended_error_wrapping (url e : String) (http : FetchRequest → HttpOutcome)
    (backend : List ChatMessage → Except String String)
    (website : Website) (api_key : String) (post : OllamaPayload → OllamaOutcome) :
    (websiteInit url http = .error e →
      analyze_website url http backend = .error ("Analysis failed: " ++ e)) ∧
    (∀ w, websiteInit url http = .ok w →
      backend [⟨"system", app_system_prompt⟩,
          ⟨"user", user_prompt_app (pyFormatOpt w.title) url w.text⟩] = .error e →
      analyze_website url http backend = .error ("Analysis failed: " ++ e)) ∧
    (backend [⟨"system", app2_system_prompt⟩,
        ⟨"user", app2_user_content (pyFormatOpt website.title) website.url website.text⟩] =
          .error e →
      analyze_with_openai website api_key backend = .error ("OpenAI analysis failed: " ++ e)) ∧
    (post { model := OLLAMA_MODEL,
            prompt := ollama_full_prompt (pyFormatOpt website.title) website.url website.text,
            stream := false } = .transportError e →
      analyze_with_ollama website post = .error ("Ollama analysis failed: " ++ e)) := by
  refine ⟨?_, ?_, ?_, ?_⟩
  · intro h; simp [analyze_website, h]
  · intro w hw hb; simp [analyze_website, hw, hb]
  · intro hb; simp [analyze_with_openai, hb]
  · intro hp; simp [analyze_with_ollama, hp]

/-- C6 witness: the amended theorem applied to a concrete fetch failure,
a concrete hosted-backend failure, and a concrete local-backend
transport failure. -/
theorem c6_amended_witness :
    analyze_website "http://x.test" (fun _ => .transportError "boom") (fun _ => .ok "r") =
      .error ("Analysis failed: " ++ "Error fetching website: boom") ∧
    analyze_with_openai ⟨"http://x.test", some "T", "B"⟩ "sk-key" (fun _ => .error "401") =
      .error ("OpenAI analysis failed: " ++ "401") ∧
    analyze_with_ollama ⟨"http://x.test", some "T", "B"⟩ (fun _ => .transportError "conn") =
      .error ("Ollama analysis failed: " ++ "conn") :=
  ⟨(c6_amended_error_wrapping "http://x.test" "Error fetching website: boom"
      (fun _ => .transportError "boom") (fun _ => .ok "r")
      ⟨"http://x.test", some "T", "B"⟩ "sk-key" (fun _ => .transportError "conn")).1 rfl,
   (c6_amended_error_wrapping "http://x.test" "401"
      (fun _ => .transportError "boom") (fun _ => .error "401")
      ⟨"http://x.test", some "T", "B"⟩ "sk-key" (fun _ => .transportError "conn")).2.2.1 rfl,
   (c6_amended_error_wrapping "http://x.test" "conn"
      (fun _ => .transportError "boom") (fun _ => .ok "r")
      ⟨"http://x.test", some "T", "B"⟩ "sk-key" (fun _ => .transportError "conn")).2.2.2 rfl⟩

/-- C7: when the OpenAI provider is selected and the session api key is
missing (None or empty), a run of app2.py `main` with the analyze
button pressed stops with the key error, and the list of network calls
it makes is empty: the pipeline is blocked before any network call. -/
theorem c7_missing_key_blocks_before_network (url : String) (apiKey : Option String)
    (tags gen : HttpOutcome) (http : FetchRequest → HttpOutcome)
    (openaiBackend : List ChatMessage → Except String String)
    (ollamaPost : OllamaPayload → OllamaOutcome)
    (hkey : keyMissing apiKey = true) (hurl : url ≠ "") :
    mainRun true url .openai apiKey tags gen http openaiBackend ollamaPost =
      (.blocked "❌ Please provide an OpenAI API key", []) := by
  simp [mainRun, hurl, hkey]

/-- C7 witness: the theorem applied with no session key at a concrete
URL and concrete oracles. -/
theorem c7_witness :
    mainRun true "http://x.test" .openai none (.transportError "t") (.transportError "g")
      (fun _ => .transportError "h") (fun _ => .ok "r") (fun _ => .transportError "p") =
    (.blocked "❌ Please provide an OpenAI API key", []) :=
  c7_missing_key_blocks_before_network "http://x.test" none (.transportError "t")
    (.transportError "g") (fun _ => .transportError "h") (fun _ => .ok "r")
    (fun _ => .transportError "p") rfl (by decide)

/-- C8: when the Ollama provider is selected and the local server is
unreachable (the tags GET fails at transport level), the availability
probe reports unavailable, a run of `main` with the button pressed
stops with the server error, and the only network calls made are the
two probe GETs — no page fetch and no completion call. -/
theorem c8_ollama_unreachable_blocks (url msg : String) (apiKey : Option String)
    (gen : HttpOutcome) (http : FetchRequest → HttpOutcome)
    (openaiBackend : List ChatMessage → Except String String)
    (ollamaPost : OllamaPayload → OllamaOutcome) (hurl : url ≠ "") :
    check_ollama_availability (.transportError msg) gen = false ∧
    mainRun true url .ollama apiKey (.transportError msg) gen http openaiBackend ollamaPost =
      (.blocked "❌ Ollama server is not available", [.probeTags, .probeTags]) ∧
    NetCall.completionPost ∉
      (mainRun true url .ollama apiKey (.transportError msg) gen http openaiBackend
        ollamaPost).2 ∧
    ∀ req : FetchRequest,
      NetCall.pageGet req ∉
        (mainRun true url .ollama apiKey (.transportError msg) gen http openaiBackend
          ollamaPost).2 := by
  have hm : mainRun true url .ollama apiKey (.transportError msg) gen http openaiBackend
      ollamaPost = (.blocked "❌ Ollama server is not available", [.probeTags, .probeTags]) := by
    simp [mainRun, hurl, check_ollama_availability, probeCalls]
  refine ⟨rfl, hm, ?_, ?_⟩
  · rw [hm]; simp
  · intro req; rw [hm]; simp

/-- C8 witness: the theorem applied at a concrete URL with a concrete
connection-refused transport failure. -/
theorem c8_witness :
    check_ollama_availability (.transportError "conn refused") (.transportError "g") = false ∧
    mainRun true "http://x.test" .ollama none (.transportError "conn refused")
      (.transportError "g") (fun _ => .transportError "h") (fun _ => .ok "r")
      (fun _ => .transportError "p") =
      (.blocked "❌ Ollama server is not available", [.probeTags, .probeTags]) ∧
    NetCall.completionPost ∉
      (mainRun true "http://x.test" .ollama none (.transportError "conn refused")
        (.transportError "g") (fun _ => .transportError "h") (fun _ => .ok "r")
        (fun _ => .transportError "p")).2 ∧
    ∀ req : FetchRequest,
      NetCall.pageGet req ∉
        (mainRun true "http://x.test" .ollama none (.transportError "conn refused")
          (.transportError "g") (fun _ => .transportError "h") (fun _ => .ok "r")
          (fun _ => .transportError "p")).2 :=
  c8_ollama_unreachable_blocks "http://x.test" "conn refused" none (.transportError "g")
    (fun _ => .transportError "h") (fun _ => .ok "r") (fun _ => .transportError "p")
    (by decide)

/-- C9: each of the three prompt builders (the app.py user prompt, the
app2.py OpenAI user message content, and the app2.py Ollama merged
prompt) embeds the page title, URL and body text as verbatim
substrings; in particular, for title "Example", url "http://x.test" and
body text "Hello", each user content contains those three strings. -/
theorem c9_prompt_contains_page_fields :
    promptNeedles user_prompt_app ∧
    promptNeedles app2_user_content ∧
    promptNeedles ollama_full_prompt ∧
    (strContains (user_prompt_app "Example" "http://x.test" "Hello") "Example" ∧
     strContains (user_prompt_app "Example" "http://x.test" "Hello") "http://x.test" ∧
     strContains (user_prompt_app "Example" "http://x.test" "Hello") "Hello") ∧
    (strContains (app2_user_content "Example" "http://x.test" "Hello") "Example" ∧
     strContains (app2_user_content "Example" "http://x.test" "Hello") "http://x.test" ∧
     strContains (app2_user_content "Example" "http://x.test" "Hello") "Hello") := by
  have happ : promptNeedles user_prompt_app := by
    intro t u b
    unfold user_prompt_app
    exact ⟨strContains_appendRight _ _ _ (strContains_appendRight _ _ _
            (strContains_appendRight _ _ _ (strContains_appendRight _ _ _
              (strContains_appendLeft _ _ _ (strContains_self t))))),
          strContains_appendRight _ _ _ (strContains_appendRight _ _ _
            (strContains_appendLeft _ _ _ (strContains_self u))),
          strContains_appendLeft _ _ _ (strContains_self b)⟩
  have h2 : promptNeedles app2_user_content := by
    intro t u b
    unfold app2_user_content
    exact ⟨strContains_appendRight _ _ _ (strContains_appendRight _ _ _
            (strContains_appendRight _ _ _ (strContains_appendRight _ _ _
              (strContains_appendLeft _ _ _ (strContains_self t))))),
          strContains_appendRight _ _ _ (strContains_appendRight _ _ _
            (strContains_appendLeft _ _ _ (strContains_self u))),
          strContains_appendLeft _ _ _ (strContains_self b)⟩
  have holl : promptNeedles ollama_full_prompt := by
    intro t u b
    unfold ollama_full_prompt
    obtain ⟨ht, hu, hb⟩ := h2 t u b
    exact ⟨strContains_appendLeft _ _ _ ht,
           strContains_appendLeft _ _ _ hu,
           strContains_appendLeft _ _ _ hb⟩
  exact ⟨happ, h2, holl, happ "Example" "http://x.test" "Hello",
         h2 "Example" "http://x.test" "Hello"⟩

/-- C10: the availability probe is a total boolean function of the
outcomes of its two network calls: it returns true exactly when both
the tags GET and the trivial generation POST return status 200, and
false — rather than an exception — on every transport failure or
non-200 status. -/
theorem c10_probe_total_and_exact (tags gen : HttpOutcome) :
    check_ollama_availability tags gen =
      (statusOf tags == some 200 && statusOf gen == some 200) := by
  cases tags with
  | transportError m => simp [check_ollama_availability, statusOf]
  | response s r b =>
    by_cases hs : s = 200
    · cases gen with
      | transportError m2 => simp [check_ollama_availability, statusOf, hs]
      | response s2 r2 b2 => simp [check_ollama_availability, statusOf, hs]
    · cases gen with
      | transportError m2 => simp [check_ollama_availability, statusOf, hs]
      | response s2 r2 b2 => simp [check_ollama_availability, statusOf, hs]

end SeoAnalyst
